import Mathlib

/-!
Shallow embedding of the ConsVision Watershed Impact Model
(src/WtrshdImpact_Functions.py) and proofs about its scoring pipeline.

Raster algebra is modelled cellwise: a raster cell is a rational number,
with `Option` representing nodata and `Except` representing Python
runtime errors.  Each definition mirrors one function (or one raster
expression inside a function) of the source file.
-/

namespace WtrshdImpact

/-! ### getTruncVals (src/WtrshdImpact_Functions.py, lines 23-44)

The statistics of the (possibly masked) raster are modelled as a record;
`getTruncVals` combines them exactly as the source does:
`TruncMin = max(rMin, rMean - numSD*rSD)`, `TruncMax = min(rMax, rMean + numSD*rSD)`. -/

/-- Summary statistics of a raster, as exposed by the `Raster` object
(`r.minimum`, `r.maximum`, `r.mean`, `r.standardDeviation`). -/
structure RasterStats where
  minimum : ℚ
  maximum : ℚ
  mean : ℚ
  standardDeviation : ℚ

/-- The statistics are coherent: the mean lies between the extremes and the
standard deviation is nonnegative.  Any actual raster satisfies this. -/
def RasterStats.Coherent (r : RasterStats) : Prop :=
  r.minimum ≤ r.mean ∧ r.mean ≤ r.maximum ∧ 0 ≤ r.standardDeviation

/-- `getTruncVals` (lines 37-44): truncation cutoffs from raster statistics. -/
def getTruncVals (r : RasterStats) (numSD : ℚ) : ℚ × ℚ :=
  (max r.minimum (r.mean - numSD * r.standardDeviation),
   min r.maximum (r.mean + numSD * r.standardDeviation))

/-! ### eventRunoff (src/WtrshdImpact_Functions.py, lines 523-584)

Cell-level embedding of the curve-number (`inputType = "CN"`) computation:
`retention = Con(curvNum == 0, 1000, ((float(1000)/curvNum) - 10))` and
`runoffDepth = Con(curvNum == 0, 0,
   Con((rain - 0.2*retention) > 0, (rain - 0.2*retention)**2/(rain + 0.8*retention), 0))`. -/

/-- Maximum retention per cell (line 563). -/
def retention (curvNum : ℚ) : ℚ :=
  if curvNum = 0 then 1000 else 1000 / curvNum - 10

/-- Event runoff depth per cell (line 571), in curve-number mode where
`retention` has been computed from the curve number. -/
def runoffDepth (curvNum rain : ℚ) : ℚ :=
  if curvNum = 0 then 0
  else if rain - 0.2 * retention curvNum > 0 then
    (rain - 0.2 * retention curvNum) ^ 2 / (rain + 0.8 * retention curvNum)
  else 0

/-- Runoff volume per cell (lines 579-580): `0.00254*cellArea*runoffDepth`. -/
def runoffVolume (cellArea depth : ℚ) : ℚ :=
  0.00254 * cellArea * depth

/-! ### calcPositionScore / calcImpactScore (lines 831-865)

`CellStatistics([a, b], stat, "DATA")` over two rasters: nodata cells are
ignored, so a cell where only one input is defined passes that value through. -/

/-- `CellStatistics([a,b], "MAXIMUM", "DATA")` at one cell. -/
def cellStatMax (a b : Option ℚ) : Option ℚ :=
  match a, b with
  | some x, some y => some (max x y)
  | some x, none => some x
  | none, some y => some y
  | none, none => none

/-- `CellStatistics([a,b], "MEAN", "DATA")` at one cell. -/
def cellStatMean (a b : Option ℚ) : Option ℚ :=
  match a, b with
  | some x, some y => some ((x + y) / 2)
  | some x, none => some x
  | none, some y => some y
  | none, none => none

/-- `calcPositionScore` (line 842) at one cell. -/
def calcPositionScore (flowScore karstScore : Option ℚ) : Option ℚ :=
  cellStatMax flowScore karstScore

/-- `calcImpactScore` (line 859) at one cell. -/
def calcImpactScore (positionScore soilSensScore : Option ℚ) : Option ℚ :=
  cellStatMean positionScore soilSensScore

/-! ### curvNum (src/WtrshdImpact_Functions.py, lines 379-521)

The four curve-number dictionaries keyed by NLCD land-cover code, one per
hydrologic soil group, transcribed from lines 405-479.  A Python dict is an
association list; indexing `d[k]` is a lookup that fails (KeyError) on an
absent key, modelled by `Option`. -/

/-- Python dict indexing `d[k]` as a fallible lookup. -/
def dictLookup {α β : Type} [BEq α] (d : List (α × β)) (k : α) : Option β :=
  (d.find? (fun p => p.1 == k)).map Prod.snd

/-- `dictA` (lines 406-421): curve numbers for hydrologic group A. -/
def dictA : List (ℕ × ℕ) :=
  [(11, 0), (21, 49), (22, 61), (23, 77), (24, 89), (31, 77), (32, 0),
   (41, 30), (42, 30), (43, 30), (52, 30), (71, 30), (81, 39), (82, 67),
   (90, 0), (95, 0)]

/-- `dictB` (lines 425-440): curve numbers for hydrologic group B. -/
def dictB : List (ℕ × ℕ) :=
  [(11, 0), (21, 69), (22, 75), (23, 85), (24, 92), (31, 86), (32, 0),
   (41, 55), (42, 55), (43, 55), (52, 48), (71, 58), (81, 61), (82, 78),
   (90, 0), (95, 0)]

/-- `dictC` (lines 444-459): curve numbers for hydrologic group C. -/
def dictC : List (ℕ × ℕ) :=
  [(11, 0), (21, 79), (22, 83), (23, 90), (24, 94), (31, 91), (32, 0),
   (41, 70), (42, 70), (43, 70), (52, 65), (71, 71), (81, 74), (82, 85),
   (90, 0), (95, 0)]

/-- `dictD` (lines 463-478): curve numbers for hydrologic group D. -/
def dictD : List (ℕ × ℕ) :=
  [(11, 0), (21, 84), (22, 87), (23, 92), (24, 95), (31, 94), (32, 0),
   (41, 77), (42, 77), (43, 77), (52, 73), (71, 78), (81, 80), (82, 89),
   (90, 0), (95, 0)]

/-- Raster branch of `curvNum` (lines 484-512) at one cell: the per-group
curve-number fields are calculated with `try: cn = dic[code] except: cn = 0`,
then combined by a `Con` chain on the hydrologic-group raster whose final
`Con` has no else branch (nodata for groups outside 1-4). -/
def curvNumRasterCell (lc grp : ℕ) : Option ℕ :=
  if grp = 1 then some ((dictLookup dictA lc).getD 0)
  else if grp = 2 then some ((dictLookup dictB lc).getD 0)
  else if grp = 3 then some ((dictLookup dictC lc).getD 0)
  else if grp = 4 then some ((dictLookup dictD lc).getD 0)
  else none

/-- Constant branch of `curvNum` (line 516) at one cell: Python evaluates the
four subscripts `dictA[in_LC] … dictD[in_LC]` eagerly as arguments of the
`Con` chain, so one absent key raises KeyError before any output is made. -/
def curvNumConstCell (lc grp : ℕ) : Except String (Option ℕ) :=
  match dictLookup dictA lc, dictLookup dictB lc,
      dictLookup dictC lc, dictLookup dictD lc with
  | some a, some b, some c, some d =>
      Except.ok (if grp = 1 then some a else if grp = 2 then some b
        else if grp = 3 then some c else if grp = 4 then some d else none)
  | _, _, _, _ => Except.error "KeyError"

/-! ### SlopeTrans cell formulas (src/WtrshdImpact_Functions.py, lines 305-336)

The raster expressions of the three transformation types, per cell, over
exact reals.  `Int` in ArcGIS raster algebra truncates toward zero. -/

/-- ArcGIS `Int`: truncation toward zero. -/
noncomputable def intTrunc (x : ℝ) : ℤ :=
  if 0 ≤ x then ⌊x⌋ else ⌈x⌉

/-- TRUNCLIN, percent-grade input (lines 307-313): degree thresholds 1 and 30
are converted to percent grade by `100·tan(θ)`. -/
noncomputable def trunclinPercent (s : ℝ) : ℝ :=
  let minSlope := 100 * Real.tan (1 * Real.pi / 180)
  let maxSlope := 100 * Real.tan (30 * Real.pi / 180)
  if s ≤ minSlope then 0
  else if s > maxSlope then 100
  else 100 * (s - minSlope) / (maxSlope - minSlope)

/-- TRUNCLIN, degree input (line 316). -/
noncomputable def trunclinDegrees (s : ℝ) : ℝ :=
  if s ≤ 1 then 0
  else if s > 30 then 100
  else 100 * (s - 1) / (30 - 1)

/-- TRUNCSIN, percent-grade input (line 322):
`Min(100, Int(0.5 + 200*Sin(ATan(in_Slope/100))))`. -/
noncomputable def truncsinPercent (s : ℝ) : ℤ :=
  min 100 (intTrunc (0.5 + 200 * Real.sin (Real.arctan (s / 100))))

/-- TRUNCSIN, degree input (line 325):
`Min(100, Int(0.5 + 200*Sin(in_Slope * math.pi/180.0)))`. -/
noncomputable def truncsinDegrees (s : ℝ) : ℤ :=
  min 100 (intTrunc (0.5 + 200 * Real.sin (s * Real.pi / 180)))

/-- RUSLE S-factor, branch used below the 9-percent inflection (line 332,
second argument of the `Con`). -/
noncomputable def rusleLowBranch (s : ℝ) : ℝ :=
  10.8 * Real.sin (Real.arctan (s / 100)) + 0.03

/-- RUSLE S-factor, branch used at or above the 9-percent inflection
(line 332, third argument of the `Con`). -/
noncomputable def rusleHighBranch (s : ℝ) : ℝ :=
  16.8 * Real.sin (Real.arctan (s / 100)) - 0.50

/-- RUSLE S-factor, percent-grade input (lines 329-332):
`Con(in_Slope < inflect, low, high)` with `inflect = 9.0`. -/
noncomputable def rusleSPercent (s : ℝ) : ℝ :=
  if s < 9 then rusleLowBranch s else rusleHighBranch s

/-- RUSLE S-factor, degree input (lines 334-336): the inflection is converted
to degrees by `atan(9/100)·180/π`. -/
noncomputable def rusleSDegrees (s : ℝ) : ℝ :=
  if s < Real.arctan (9 / 100) * 180 / Real.pi then
    10.8 * Real.sin (s * Real.pi / 180) + 0.03
  else 16.8 * Real.sin (s * Real.pi / 180) - 0.50

/-! ### SlopeTrans control flow (src/WtrshdImpact_Functions.py, lines 249-343)

A raster is a list of cells.  The local variable `in_Slope` is modelled as an
`Option`: it is assigned only in the elevation branch (line 300), and the
slope-raster branch reads it before any assignment (line 303,
`in_Slope = Raster(in_Slope)`), which in Python raises UnboundLocalError. -/

/-- Cellwise dispatch of the transformation applied once a slope raster is in
hand (lines 305-336). -/
noncomputable def applyTransCell (transType slopeType : String) (s : ℝ) : ℝ :=
  if transType = "TRUNCLIN" then
    if slopeType = "PERCENT" then trunclinPercent s else trunclinDegrees s
  else if transType = "TRUNCSIN" then
    if slopeType = "PERCENT" then (truncsinPercent s : ℝ)
    else (truncsinDegrees s : ℝ)
  else if slopeType = "PERCENT" then rusleSPercent s
  else rusleSDegrees s

/-- `SlopeTrans` (lines 249-343).  `arcpySlope` stands for the external
`Slope` tool used at line 300 to derive percent-grade slope from elevation.
Validation of `inputType` and `transType` (lines 268-289) happens before the
slope raster is identified. -/
noncomputable def SlopeTrans (arcpySlope : List ℝ → List ℝ)
    (inputType transType : String) (in_Raster : List ℝ) :
    Except String (List ℝ) :=
  if inputType = "DEG" ∨ inputType = "DEGREES" ∨ inputType = "PERC" ∨
      inputType = "PERCENT" ∨ inputType = "ELEV" ∨ inputType = "ELEVATION" then
    if transType = "TRUNCLIN" ∨ transType = "TRUNCSIN" ∨ transType = "RUSLE" then
      let slopeType :=
        if inputType = "DEG" ∨ inputType = "DEGREES" then "DEGREES"
        else "PERCENT"
      let in_Slope : Option (List ℝ) :=
        if inputType = "ELEV" ∨ inputType = "ELEVATION" then
          some (arcpySlope in_Raster)
        else none
      match in_Slope with
      | none =>
          Except.error "UnboundLocalError: in_Slope referenced before assignment"
      | some slope => Except.ok (slope.map (applyTransCell transType slopeType))
    else Except.error "SystemExit: invalid transformation"
  else Except.error "SystemExit: invalid input type"

/-! ### makeHdwtrsIndicator (src/WtrshdImpact_Functions.py, lines 637-676)

Catchment-level embedding: `JoinField` (line 670) attaches the `StartFlag`
attribute of the flowline with matching `NHDPlusID`; a catchment with no
matching flowline gets a null attribute. -/

/-- `JoinField` of `StartFlag` (line 670) for one catchment: look the
catchment's `NHDPlusID` up among the flowlines. -/
def joinStartFlag (flowlines : List (ℕ × ℕ)) (catchmentID : ℕ) : Option ℕ :=
  dictLookup flowlines catchmentID

/-- Modelled from the spec: `PolyToRaster` (line 672) is imported from
`HelperPro`, which is not part of src/; per the spec, when it burns the
joined start-flag attribute into the output raster, catchments lacking any
matching flowline must default to indicator 0, not null. -/
def polyToRasterStartFlag (flag : Option ℕ) : ℕ :=
  flag.getD 0

/-- `makeHdwtrsIndicator` (lines 666-672) at one in-mask cell of a catchment. -/
def makeHdwtrsIndicatorCell (flowlines : List (ℕ × ℕ)) (catchmentID : ℕ) : ℕ :=
  polyToRasterStartFlag (joinStartFlag flowlines catchmentID)

/-! ### calcPriorityScores (src/WtrshdImpact_Functions.py, lines 964-1031) -/

/-- The importance input: the constant 1 (the code tests
`in_ImportanceScore == 1`) or an importance raster. -/
inductive ImportanceInput where
  | one : ImportanceInput
  | raster : List ℚ → ImportanceInput

/-- General priority score (lines 992-996): the impact raster unchanged when
the importance input is the constant 1, else `importance/100 · impact`
cellwise. -/
def generalPriority : ImportanceInput → List ℚ → List ℚ
  | ImportanceInput.one, impact => impact
  | ImportanceInput.raster imp, impact =>
      List.zipWith (fun i v => i / 100 * v) imp impact

/-- `r.minimum` of a raster given as a cell list. -/
def gridMinimum : List ℚ → ℚ
  | [] => 0
  | c :: rest => rest.foldl min c

/-- `r.maximum` of a raster given as a cell list. -/
def gridMaximum : List ℚ → ℚ
  | [] => 0
  | c :: rest => rest.foldl max c

/-- Modelled from the spec: `TfLinear`/`RescaleByFunction` (HelperPro/arcpy,
not under src/) maps `srcLow → dstLow` and `srcHigh → dstHigh` linearly and
clamps values outside `[srcLow, srcHigh]`. -/
def linearRescale (v srcLow srcHigh dstLow dstHigh : ℚ) : ℚ :=
  if v ≤ srcLow then dstLow
  else if srcHigh ≤ v then dstHigh
  else dstLow + (v - srcLow) * (dstHigh - dstLow) / (srcHigh - srcLow)

/-- STANDARD rescale branch of `calcPriorityScores` (lines 1004-1013): the
locals `rMin` and `rMax` are assigned from the raster statistics, but the
`TfLinear` call on line 1010 reads the names `rmin` and `rmax`, which are
never bound; Python raises NameError there. -/
def standardRescale (cells : List ℚ) : Except String (List ℚ) :=
  let localEnv : List (String × ℚ) :=
    [("rMin", gridMinimum cells), ("rMax", gridMaximum cells)]
  match dictLookup localEnv "rmin", dictLookup localEnv "rmax" with
  | some lo, some hi =>
      Except.ok (cells.map (fun v => linearRescale v lo hi 1 100))
  | _, _ => Except.error "NameError: name rmin is not defined"

/-- `calcPriorityScores` in STANDARD rescale mode, up to the point where the
rescaled general score would be masked into the three priority outputs
(lines 990-1013). -/
def calcPriorityScoresStandard (impact : List ℚ) (importance : ImportanceInput) :
    Except String (List ℚ) :=
  standardRescale (generalPriority importance impact)

end WtrshdImpact

namespace WtrshdImpact

/-- Helper: a positive curve number no greater than 100 yields a nonnegative
retention. -/
theorem retention_nonneg {cn : ℚ} (h0 : 0 < cn) (h100 : cn ≤ 100) :
    0 ≤ retention cn := by
  have hne : cn ≠ 0 := ne_of_gt h0
  rw [retention, if_neg hne]
  rw [sub_nonneg, le_div_iff₀ h0]
  linarith

/-- C2: In eventRunoff with inputType CN, the computed retention equals 1000
when the curve number is 0 and `1000/CN - 10` when `CN > 0` (so CN=80 gives
2.5 and CN=100 gives 0); the zero case is decided by the guard of the `Con`
expression, so the division is never evaluated at a zero curve number. -/
theorem eventRunoff_retention (cn : ℚ) :
    (cn = 0 → retention cn = 1000) ∧
    (0 < cn → retention cn = 1000 / cn - 10) ∧
    retention 80 = 5 / 2 ∧ retention 100 = 0 := by
  refine ⟨fun h => by rw [retention, if_pos h], fun h => ?_, ?_, ?_⟩
  · rw [retention, if_neg (ne_of_gt h)]
  · norm_num [retention]
  · norm_num [retention]

/-- Witness for C2 at curve numbers 0 and 80. -/
theorem eventRunoff_retention_witness :
    retention 0 = 1000 ∧ retention 80 = 1000 / 80 - 10 := by
  refine ⟨(eventRunoff_retention 0).1 rfl, ?_⟩
  have h := (eventRunoff_retention 80).2.1 (by norm_num)
  exact h

/-- C1: in curve-number mode, the runoff depth of a cell is 0 when the curve
number is 0 (whatever the rainfall); for a positive curve number it is 0
whenever `rain ≤ 0.2·retention`, equals
`(rain - 0.2·retention)² / (rain + 0.8·retention)` whenever
`rain > 0.2·retention`, and is strictly increasing in the rainfall above that
threshold for the fixed retention determined by the curve number (curve
numbers lie in (0, 100], which makes the retention nonnegative). -/
theorem eventRunoff_runoffDepth (cn rain r1 r2 : ℚ) :
    (cn = 0 → runoffDepth cn rain = 0) ∧
    (0 < cn → rain ≤ 0.2 * retention cn → runoffDepth cn rain = 0) ∧
    (0 < cn → 0.2 * retention cn < rain →
      runoffDepth cn rain
        = (rain - 0.2 * retention cn) ^ 2 / (rain + 0.8 * retention cn)) ∧
    (0 < cn → cn ≤ 100 → 0.2 * retention cn < r1 → r1 < r2 →
      runoffDepth cn r1 < runoffDepth cn r2) := by
  refine ⟨fun h => by rw [runoffDepth, if_pos h], fun h hle => ?_,
    fun h hgt => ?_, fun h h100 hr1 h12 => ?_⟩
  · rw [runoffDepth, if_neg (ne_of_gt h), if_neg (by simp; linarith)]
  · rw [runoffDepth, if_neg (ne_of_gt h), if_pos (by linarith)]
  · have hS : 0 ≤ retention cn := retention_nonneg h h100
    set S := retention cn with hSdef
    have hr2 : 0.2 * S < r2 := hr1.trans h12
    have hp1 : (0 : ℚ) < r1 := lt_of_le_of_lt (by linarith) hr1
    have hp2 : (0 : ℚ) < r2 := lt_of_le_of_lt (by linarith) hr2
    have hd1 : (0 : ℚ) < r1 + 0.8 * S := by linarith
    have hd2 : (0 : ℚ) < r2 + 0.8 * S := by linarith
    rw [runoffDepth, runoffDepth, if_neg (ne_of_gt h), if_neg (ne_of_gt h),
      if_pos (by linarith), if_pos (by linarith), div_lt_div_iff₀ hd1 hd2]
    have hmul : (0.2 * S) * (0.2 * S) < r1 * r2 :=
      mul_lt_mul' (le_of_lt hr1) hr2 (by linarith) hp1
    have hrest : (0 : ℚ) ≤ (0.8 * S) * (r1 + r2 - 0.4 * S) :=
      mul_nonneg (by linarith) (by linarith)
    have key : (0 : ℚ)
        < r1 * r2 - (0.2 * S) ^ 2 + (0.8 * S) * (r1 + r2 - 0.4 * S) := by
      nlinarith
    nlinarith [mul_pos (sub_pos.2 h12) key]

/-- Witness for C1: curve number 80 gives retention 2.5, so the initial
abstraction is 0.5 inch; rainfall at or below it yields zero depth, above it
the quadratic formula applies and more rain gives more runoff. -/
theorem eventRunoff_runoffDepth_witness :
    runoffDepth 0 3 = 0 ∧ runoffDepth 80 0.4 = 0 ∧
    runoffDepth 80 3 = (3 - 0.2 * retention 80) ^ 2 / (3 + 0.8 * retention 80) ∧
    runoffDepth 80 3 < runoffDepth 80 4 :=
  ⟨(eventRunoff_runoffDepth 0 3 0 0).1 rfl,
   (eventRunoff_runoffDepth 80 0.4 0 0).2.1 (by norm_num) (by norm_num [retention]),
   (eventRunoff_runoffDepth 80 3 0 0).2.2.1 (by norm_num) (by norm_num [retention]),
   (eventRunoff_runoffDepth 80 0 3 4).2.2.2 (by norm_num) (by norm_num)
     (by norm_num [retention]) (by norm_num)⟩

/-- C5: for coherent raster statistics and `numSD ≥ 0`, `getTruncVals`
returns exactly `(max(gridMin, μ - numSD·σ), min(gridMax, μ + numSD·σ))`,
the returned pair never has min > max, and both bounds lie within
`[gridMin, gridMax]`. -/
theorem getTruncVals_spec (r : RasterStats) (numSD : ℚ)
    (hc : r.Coherent) (hn : 0 ≤ numSD) :
    getTruncVals r numSD
      = (max r.minimum (r.mean - numSD * r.standardDeviation),
         min r.maximum (r.mean + numSD * r.standardDeviation)) ∧
    (getTruncVals r numSD).1 ≤ (getTruncVals r numSD).2 ∧
    r.minimum ≤ (getTruncVals r numSD).1 ∧
    (getTruncVals r numSD).1 ≤ r.maximum ∧
    r.minimum ≤ (getTruncVals r numSD).2 ∧
    (getTruncVals r numSD).2 ≤ r.maximum := by
  obtain ⟨h1, h2, h3⟩ := hc
  have hks : 0 ≤ numSD * r.standardDeviation := mul_nonneg hn h3
  refine ⟨rfl, ?_, ?_, ?_, ?_, ?_⟩ <;> simp only [getTruncVals]
  · exact max_le (le_min (by linarith) (by linarith))
      (le_min (by linarith) (by linarith))
  · exact le_max_left _ _
  · exact max_le (by linarith) (by linarith)
  · exact le_min (by linarith) (by linarith)
  · exact min_le_left _ _

/-- Witness for C5 at a concrete coherent statistics record. -/
theorem getTruncVals_spec_witness :
    (⟨0, 10, 4, 1⟩ : RasterStats).Coherent ∧
    (getTruncVals ⟨0, 10, 4, 1⟩ 3).1 ≤ (getTruncVals ⟨0, 10, 4, 1⟩ 3).2 :=
  ⟨by norm_num [RasterStats.Coherent],
   (getTruncVals_spec ⟨0, 10, 4, 1⟩ 3
     (by norm_num [RasterStats.Coherent]) (by norm_num)).2.1⟩

/-- C7: wherever both inputs are defined, `calcPositionScore` is the
elementwise maximum of the flow and karst scores and `calcImpactScore` is the
elementwise mean of the position and soil-sensitivity scores. -/
theorem positionScore_max_impactScore_mean (x y p s : ℚ) :
    calcPositionScore (some x) (some y) = some (max x y) ∧
    calcImpactScore (some p) (some s) = some ((p + s) / 2) :=
  ⟨rfl, rfl⟩

/-- Helper: a key that is not among the firsts of an association list looks
up to `none`. -/
theorem dictLookup_eq_none {β : Type} (d : List (ℕ × β)) (k : ℕ)
    (h : k ∉ d.map Prod.fst) : dictLookup d k = none := by
  have hf : d.find? (fun p => p.1 == k) = none := by
    rw [List.find?_eq_none]
    intro x hx hbeq
    exact h (List.mem_map.2 ⟨x, hx, by simpa using hbeq⟩)
  simp [dictLookup, hf]

/-- C6 counterexample: land-cover code 12 is absent from the curve-number
table; with a constant land-cover input (the `else` branch of `curvNum`,
line 516) the dictionary subscript raises KeyError instead of yielding the
default curve number 0, already at hydrologic group 1. -/
theorem curvNum_const_keyError :
    dictLookup dictA 12 = none ∧
    curvNumConstCell 12 1 = Except.error "KeyError" ∧
    curvNumConstCell 12 1 ≠ Except.ok (some 0) := by
  refine ⟨rfl, rfl, ?_⟩
  intro h
  exact Except.noConfusion h

/-- C6 amended: for a full land-cover raster, any land-cover code not present
in the lookup table yields curve number 0 for every hydrologic group 1-4
(the `try/except` in the field calculation); but for a constant integer
land-cover class, an absent code raises an unhandled KeyError. -/
theorem curvNum_unmatched_default (lc grp : ℕ)
    (habs : lc ∉ dictA.map Prod.fst) (h1 : 1 ≤ grp) (h4 : grp ≤ 4) :
    curvNumRasterCell lc grp = some 0 ∧
    curvNumConstCell lc grp = Except.error "KeyError" := by
  have hkB : dictB.map Prod.fst = dictA.map Prod.fst := by decide
  have hkC : dictC.map Prod.fst = dictA.map Prod.fst := by decide
  have hkD : dictD.map Prod.fst = dictA.map Prod.fst := by decide
  have hA : dictLookup dictA lc = none := dictLookup_eq_none _ _ habs
  have hB : dictLookup dictB lc = none := dictLookup_eq_none _ _ (hkB ▸ habs)
  have hC : dictLookup dictC lc = none := dictLookup_eq_none _ _ (hkC ▸ habs)
  have hD : dictLookup dictD lc = none := dictLookup_eq_none _ _ (hkD ▸ habs)
  constructor
  · interval_cases grp <;> simp [curvNumRasterCell, hA, hB, hC, hD]
  · simp [curvNumConstCell, hA, hB, hC, hD]

/-- Witness for the amended C6 at land-cover code 12 and hydrologic group 3. -/
theorem curvNum_unmatched_default_witness :
    curvNumRasterCell 12 3 = some 0 ∧
    curvNumConstCell 12 3 = Except.error "KeyError" :=
  curvNum_unmatched_default 12 3 (by decide) (by norm_num) (by norm_num)

/-- Helper: bounds on `sin(atan(0.09))`, the sine of the slope angle at the
9-percent RUSLE inflection point. -/
theorem sin_arctan_nine_percent_bounds :
    0.08963 < Real.sin (Real.arctan ((9 : ℝ) / 100)) ∧
    Real.sin (Real.arctan ((9 : ℝ) / 100)) < 0.08965 := by
  have hs : Real.sin (Real.arctan ((9 : ℝ) / 100))
      = ((9 : ℝ) / 100) / Real.sqrt (1 + ((9 : ℝ) / 100) ^ 2) :=
    Real.sin_arctan _
  set t := Real.sqrt (1 + ((9 : ℝ) / 100) ^ 2) with ht
  have ht2 : t ^ 2 = 1 + ((9 : ℝ) / 100) ^ 2 := Real.sq_sqrt (by positivity)
  have htpos : (0 : ℝ) < t := Real.sqrt_pos.2 (by positivity)
  have htu : t < 1.00405 := by nlinarith [sq_nonneg (t - 1.00405)]
  have htl : (1.004 : ℝ) < t := by nlinarith [sq_nonneg (t - 1.004)]
  constructor
  · rw [hs, lt_div_iff₀ htpos]; nlinarith
  · rw [hs, div_lt_iff₀ htpos]; nlinarith

/-- C3 counterexample: at slope = 9 percent grade the two RUSLE branch
values do not agree to within a floating-point-rounding-sized amount; their
difference exceeds 1/200, so the transform is not continuous at the
inflection point. -/
theorem rusle_branch_gap_large :
    1 / 200 < rusleHighBranch 9 - rusleLowBranch 9 := by
  obtain ⟨hlo, _⟩ := sin_arctan_nine_percent_bounds
  unfold rusleHighBranch rusleLowBranch
  linarith

/-- C3 amended: the two RUSLE branch values at slope = 9 percent grade differ
by a small but genuine jump of about 0.0078 (strictly between 0.007 and
0.008); the transform takes the high branch at the inflection point itself. -/
theorem rusle_branch_gap_bounds :
    7 / 1000 < rusleHighBranch 9 - rusleLowBranch 9 ∧
    rusleHighBranch 9 - rusleLowBranch 9 < 8 / 1000 ∧
    rusleSPercent 9 = rusleHighBranch 9 := by
  obtain ⟨hlo, hhi⟩ := sin_arctan_nine_percent_bounds
  refine ⟨?_, ?_, ?_⟩
  · unfold rusleHighBranch rusleLowBranch; linarith
  · unfold rusleHighBranch rusleLowBranch; linarith
  · unfold rusleSPercent; rw [if_neg (by norm_num)]

/-- C4: the TRUNCSIN transform equals `min(100, round(200·sin(atan(s/100))))`
for percent-grade slope `s ≥ 0` and `min(100, round(200·sin(θ·π/180)))` for
slope in degrees `0 ≤ θ ≤ 90`, and it saturates at exactly 100 from 30
degrees upward (in degrees directly, or whenever the percent-grade slope's
angle `atan(s/100)` reaches 30 degrees). -/
theorem truncsin_round_saturation :
    (∀ s : ℝ, 0 ≤ s →
      truncsinPercent s
        = min 100 (round (200 * Real.sin (Real.arctan (s / 100))))) ∧
    (∀ d : ℝ, 0 ≤ d → d ≤ 90 →
      truncsinDegrees d
        = min 100 (round (200 * Real.sin (d * Real.pi / 180)))) ∧
    (∀ d : ℝ, 30 ≤ d → d ≤ 90 → truncsinDegrees d = 100) ∧
    (∀ s : ℝ, Real.pi / 6 ≤ Real.arctan (s / 100) → truncsinPercent s = 100) := by
  have hp := Real.pi_pos
  refine ⟨fun s hs => ?_, fun d hd0 hd90 => ?_, fun d hd30 hd90 => ?_,
    fun s hs => ?_⟩
  · have harg0 : (0 : ℝ) ≤ Real.arctan (s / 100) := by
      rw [← Real.arctan_zero]
      exact Real.arctan_strictMono.monotone (by positivity)
    have hargπ : Real.arctan (s / 100) ≤ Real.pi :=
      (Real.arctan_lt_pi_div_two _).le.trans (by linarith)
    have hsin : 0 ≤ Real.sin (Real.arctan (s / 100)) :=
      Real.sin_nonneg_of_nonneg_of_le_pi harg0 hargπ
    unfold truncsinPercent intTrunc
    rw [if_pos (by linarith), round_eq]
    congr 2
    ring
  · have hy0 : (0 : ℝ) ≤ d * Real.pi / 180 :=
      div_nonneg (mul_nonneg hd0 hp.le) (by norm_num)
    have hyπ : d * Real.pi / 180 ≤ Real.pi := by nlinarith
    have hsin : 0 ≤ Real.sin (d * Real.pi / 180) :=
      Real.sin_nonneg_of_nonneg_of_le_pi hy0 hyπ
    unfold truncsinDegrees intTrunc
    rw [if_pos (by linarith), round_eq]
    congr 2
    ring
  · have hmem1 : Real.pi / 6 ∈ Set.Icc (-(Real.pi / 2)) (Real.pi / 2) :=
      ⟨by linarith, by linarith⟩
    have hmem2 : d * Real.pi / 180 ∈ Set.Icc (-(Real.pi / 2)) (Real.pi / 2) :=
      ⟨by nlinarith, by nlinarith⟩
    have hle : Real.pi / 6 ≤ d * Real.pi / 180 := by nlinarith
    have hsin := Real.strictMonoOn_sin.monotoneOn hmem1 hmem2 hle
    rw [Real.sin_pi_div_six] at hsin
    unfold truncsinDegrees intTrunc
    rw [if_pos (by linarith)]
    refine min_eq_left (Int.le_floor.2 ?_)
    push_cast
    linarith
  · have hmem1 : Real.pi / 6 ∈ Set.Icc (-(Real.pi / 2)) (Real.pi / 2) :=
      ⟨by linarith, by linarith⟩
    have hmem2 : Real.arctan (s / 100) ∈ Set.Icc (-(Real.pi / 2)) (Real.pi / 2) :=
      ⟨by linarith, (Real.arctan_lt_pi_div_two _).le⟩
    have hsin := Real.strictMonoOn_sin.monotoneOn hmem1 hmem2 hs
    rw [Real.sin_pi_div_six] at hsin
    unfold truncsinPercent intTrunc
    rw [if_pos (by linarith)]
    refine min_eq_left (Int.le_floor.2 ?_)
    push_cast
    linarith

/-- Witness for C4: the formula instances at concrete slopes, saturation at
30 degrees, and saturation for a percent-grade slope of 100 (a 45-degree
angle). -/
theorem truncsin_round_saturation_witness :
    truncsinPercent 0 = min 100 (round (200 * Real.sin (Real.arctan (0 / 100)))) ∧
    truncsinDegrees 45 = min 100 (round (200 * Real.sin (45 * Real.pi / 180))) ∧
    truncsinDegrees 30 = 100 ∧ truncsinPercent 100 = 100 :=
  ⟨truncsin_round_saturation.1 0 le_rfl,
   truncsin_round_saturation.2.1 45 (by norm_num) (by norm_num),
   truncsin_round_saturation.2.2.1 30 (by norm_num) (by norm_num),
   truncsin_round_saturation.2.2.2 100 (by
    rw [show (100 : ℝ) / 100 = 1 by norm_num, Real.arctan_one]
    linarith [Real.pi_pos])⟩

/-- C8: within the processing mask, a catchment whose `NHDPlusID` matches no
flowline (so the joined start-flag attribute is absent) receives headwater
indicator 0, never null/nodata. -/
theorem makeHdwtrsIndicator_unmatched (flowlines : List (ℕ × ℕ))
    (catchmentID : ℕ) (h : joinStartFlag flowlines catchmentID = none) :
    makeHdwtrsIndicatorCell flowlines catchmentID = 0 := by
  simp [makeHdwtrsIndicatorCell, polyToRasterStartFlag, h]

/-- Witness for C8: a catchment with id 7 against a flowline table holding
only id 5. -/
theorem makeHdwtrsIndicator_unmatched_witness :
    makeHdwtrsIndicatorCell [(5, 1)] 7 = 0 :=
  makeHdwtrsIndicator_unmatched [(5, 1)] 7 rfl

/-- C9 evaluation: the general priority score is the impact raster unchanged
for constant importance 1 and `importance/100 · impact` for a raster, but in
STANDARD rescale mode the function stops with a NameError (the code assigns
`rMin`/`rMax` and reads `rmin`/`rmax`), so the min-to-1, max-to-100
relinearization never happens. -/
theorem calcPriorityScores_standard_nameError :
    generalPriority ImportanceInput.one [50] = [50] ∧
    generalPriority (ImportanceInput.raster [40]) [50] = [20] ∧
    calcPriorityScoresStandard [50] ImportanceInput.one
      = Except.error "NameError: name rmin is not defined" := by
  refine ⟨rfl, ?_, rfl⟩
  norm_num [generalPriority]

/-- C10: for every inputType that names a slope raster rather than elevation
(DEG, DEGREES, PERC, PERCENT) and every valid transformation type,
`SlopeTrans` fails with an unbound-variable error before producing any
output, because the slope-raster branch reads the local `in_Slope` before it
is ever assigned; the ELEV/ELEVATION input types complete and return a
transformed raster. -/
theorem slopeTrans_unbound_in_Slope :
    (∀ (arcpySlope : List ℝ → List ℝ) (inputType transType : String)
      (in_Raster : List ℝ),
      (inputType = "DEG" ∨ inputType = "DEGREES" ∨ inputType = "PERC" ∨
        inputType = "PERCENT") →
      (transType = "TRUNCLIN" ∨ transType = "TRUNCSIN" ∨ transType = "RUSLE") →
      SlopeTrans arcpySlope inputType transType in_Raster
        = Except.error "UnboundLocalError: in_Slope referenced before assignment") ∧
    (∀ (arcpySlope : List ℝ → List ℝ) (transType : String) (in_Raster : List ℝ),
      (transType = "TRUNCLIN" ∨ transType = "TRUNCSIN" ∨ transType = "RUSLE") →
      SlopeTrans arcpySlope "ELEV" transType in_Raster
        = Except.ok ((arcpySlope in_Raster).map (applyTransCell transType "PERCENT")) ∧
      SlopeTrans arcpySlope "ELEVATION" transType in_Raster
        = Except.ok ((arcpySlope in_Raster).map (applyTransCell transType "PERCENT"))) := by
  constructor
  · intro arcpySlope inputType transType in_Raster hin htr
    rcases hin with rfl | rfl | rfl | rfl <;>
      rcases htr with rfl | rfl | rfl <;> simp [SlopeTrans]
  · intro arcpySlope transType in_Raster htr
    rcases htr with rfl | rfl | rfl <;> exact ⟨by simp [SlopeTrans], by simp [SlopeTrans]⟩

/-- Witness for C10: a degree-slope input fails with the unbound-variable
error while the elevation input completes, at a concrete one-cell raster. -/
theorem slopeTrans_unbound_in_Slope_witness :
    SlopeTrans id "DEG" "RUSLE" [5]
      = Except.error "UnboundLocalError: in_Slope referenced before assignment" ∧
    SlopeTrans id "ELEV" "RUSLE" [5]
      = Except.ok (([5] : List ℝ).map (applyTransCell "RUSLE" "PERCENT")) :=
  ⟨slopeTrans_unbound_in_Slope.1 id "DEG" "RUSLE" [5] (Or.inl rfl) (Or.inr (Or.inr rfl)),
   (slopeTrans_unbound_in_Slope.2 id "RUSLE" [5] (Or.inr (Or.inr rfl))).1⟩

end WtrshdImpact
